import Mathlib

/-!
Verification development for the products REST API
(Express + Joi + Mongoose repository).

Shallow embedding conventions:
* JavaScript numbers are modelled as rationals (`ℚ`); `Math.round` is the
  round-half-up function `round` of Mathlib (`round q = ⌊q + 1/2⌋`), which
  agrees with the ECMAScript tie-breaking rule.
* JavaScript strings are Lean `String`s; `String.prototype.trim` is `jsTrim`
  below, implemented on the character list.
* `undefined` / absent JSON fields are `Option.none`.
* Joi validation with the options used by src/src/middleware/validation.js
  (`abortEarly: false`, `allowUnknown: false`, `stripUnknown: true`) is
  embedded one schema at a time: every rule of the schema contributes its
  violations to one list, schemas return either the full violation list or
  the normalized (converted) value.  Unknown fields are carried in an
  `unknownFields` component that the validators never read, mirroring
  `stripUnknown`.
* Joi `number.precision(2)` runs in convert mode (the validate call does not
  set `convert: false`), so a number with more than 2 decimal places is
  rounded via `toFixed`, not rejected; `joiPrecision2` embeds exactly that.
-/

/-- A JavaScript value as it appears in a Joi error context (`detail.context.value`). -/
inductive JsVal where
  | num (q : ℚ)
  | str (s : String)
  | undef
  deriving DecidableEq

/-- One element of the `details` array built by src/src/middleware/validation.js:
`{ field: detail.path.join('.'), message: detail.message, value: detail.context.value }`. -/
structure ValidationDetail where
  field : String
  message : String
  value : JsVal
  deriving DecidableEq

/-- `String.prototype.trim`: drop whitespace from both ends.
Implemented on the character list so that it evaluates by `decide`. -/
def jsTrim (s : String) : String :=
  String.mk (((s.data.dropWhile Char.isWhitespace).reverse.dropWhile Char.isWhitespace).reverse)

/-- `Math.round(q * 100) / 100`, the 2-decimal rounding used by the
pre-save hook of src/src/models/Product.js (and by Joi precision conversion). -/
def round2 (q : ℚ) : ℚ := ((round (q * 100) : ℤ) : ℚ) / 100

/-- Joi `number.precision(2)` under the default `convert: true` preference:
a value with at most 2 decimal places is kept, any other value is rounded
to 2 decimal places (`parseFloat(value.toFixed(2))`); no error is produced. -/
def joiPrecision2 (q : ℚ) : ℚ :=
  if q * 100 = ((⌊q * 100⌋ : ℤ) : ℚ) then q else round2 q

/-! ## createProductSchema (src/unnamed/part_000, Joi schemas file)

The raw request body: each schema key may be present or absent.  Non-schema
keys are carried in `unknownFields` (they are stripped, never validated). -/

/-- Raw body of POST /products before validation. -/
structure CreateBody where
  name : Option String
  description : Option String
  price : Option ℚ
  category : Option String
  stock : Option ℚ
  unknownFields : List String

/-- Normalized output of `createProductSchema` on success. -/
structure CreateData where
  name : String
  description : Option String
  price : ℚ
  category : String
  stock : ℤ
  deriving DecidableEq

/-- `name: Joi.string().trim().min(1).max(100).required()` with the custom
messages of createProductSchema. -/
def checkName : Option String → List ValidationDetail × Option String
  | none => ([⟨"name", "Product name is required", .undef⟩], none)
  | some s =>
      let t := jsTrim s
      if t.length = 0 then ([⟨"name", "Product name is required", .str t⟩], none)
      else if 100 < t.length then
        ([⟨"name", "Product name cannot exceed 100 characters", .str t⟩], none)
      else ([], some t)

/-- `description: Joi.string().trim().max(500).allow('').optional()`. -/
def checkDescription : Option String → List ValidationDetail × Option String
  | none => ([], none)
  | some s =>
      let t := jsTrim s
      if 500 < t.length then
        ([⟨"description", "Description cannot exceed 500 characters", .str t⟩], none)
      else ([], some t)

/-- `price: Joi.number().positive().precision(2).required()`.  The positive
rule rejects non-positive numbers; the precision rule converts (rounds),
see `joiPrecision2`. -/
def checkPrice : Option ℚ → List ValidationDetail × Option ℚ
  | none => ([⟨"price", "Product price is required", .undef⟩], none)
  | some q =>
      if q ≤ 0 then ([⟨"price", "Price must be a positive number", .num q⟩], none)
      else ([], some (joiPrecision2 q))

/-- `category: Joi.string().trim().min(1).required()`. -/
def checkCategory : Option String → List ValidationDetail × Option String
  | none => ([⟨"category", "Product category is required", .undef⟩], none)
  | some s =>
      let t := jsTrim s
      if t.length = 0 then ([⟨"category", "Product category is required", .str t⟩], none)
      else ([], some t)

/-- `stock: Joi.number().integer().min(0).required()`; with
`abortEarly: false` both the integer rule and the min rule report. -/
def checkStock : Option ℚ → List ValidationDetail × Option ℤ
  | none => ([⟨"stock", "Stock quantity is required", .undef⟩], none)
  | some q =>
      ((if q = ((⌊q⌋ : ℤ) : ℚ) then [] else [⟨"stock", "Stock must be an integer", .num q⟩]) ++
       (if q < 0 then [⟨"stock", "Stock cannot be negative", .num q⟩] else []),
       if q = ((⌊q⌋ : ℤ) : ℚ) ∧ 0 ≤ q then some ⌊q⌋ else none)

/-- All violations of createProductSchema on a body, in schema key order
(`abortEarly: false` collects every violated rule). -/
def createErrors (b : CreateBody) : List ValidationDetail :=
  (checkName b.name).1 ++ (checkDescription b.description).1 ++ (checkPrice b.price).1 ++
    (checkCategory b.category).1 ++ (checkStock b.stock).1

/-- The normalized value produced by createProductSchema (meaningful when
`createErrors b = []`); unknown fields are stripped by construction. -/
def createValue (b : CreateBody) : CreateData where
  name := (checkName b.name).2.getD ""
  description := (checkDescription b.description).2
  price := (checkPrice b.price).2.getD 0
  category := (checkCategory b.category).2.getD ""
  stock := (checkStock b.stock).2.getD 0

/-- `createProductSchema.validate(body, { abortEarly: false, allowUnknown: false,
stripUnknown: true })`: all violations, or the normalized value. -/
def createProductSchema (b : CreateBody) : Except (List ValidationDetail) CreateData :=
  if createErrors b = [] then .ok (createValue b) else .error (createErrors b)

/-! ## updateProductSchema — same rules, every field optional, `.min(1)` -/

/-- Raw body of PUT /products/:id before validation. -/
structure UpdateBody where
  name : Option String
  description : Option String
  price : Option ℚ
  category : Option String
  stock : Option ℚ
  unknownFields : List String

/-- Normalized output of `updateProductSchema` on success. -/
structure UpdateData where
  name : Option String
  description : Option String
  price : Option ℚ
  category : Option String
  stock : Option ℤ
  deriving DecidableEq

/-- `name` rule of updateProductSchema (optional; message for an empty
name differs from the create schema). -/
def checkNameU : Option String → List ValidationDetail × Option String
  | none => ([], none)
  | some s =>
      let t := jsTrim s
      if t.length = 0 then ([⟨"name", "Product name cannot be empty", .str t⟩], none)
      else if 100 < t.length then
        ([⟨"name", "Product name cannot exceed 100 characters", .str t⟩], none)
      else ([], some t)

/-- `price` rule of updateProductSchema (optional). -/
def checkPriceU : Option ℚ → List ValidationDetail × Option ℚ
  | none => ([], none)
  | some q =>
      if q ≤ 0 then ([⟨"price", "Price must be a positive number", .num q⟩], none)
      else ([], some (joiPrecision2 q))

/-- `category` rule of updateProductSchema (optional). -/
def checkCategoryU : Option String → List ValidationDetail × Option String
  | none => ([], none)
  | some s =>
      let t := jsTrim s
      if t.length = 0 then ([⟨"category", "Product category cannot be empty", .str t⟩], none)
      else ([], some t)

/-- `stock` rule of updateProductSchema (optional). -/
def checkStockU : Option ℚ → List ValidationDetail × Option ℤ
  | none => ([], none)
  | some q =>
      ((if q = ((⌊q⌋ : ℤ) : ℚ) then [] else [⟨"stock", "Stock must be an integer", .num q⟩]) ++
       (if q < 0 then [⟨"stock", "Stock cannot be negative", .num q⟩] else []),
       if q = ((⌊q⌋ : ℤ) : ℚ) ∧ 0 ≤ q then some ⌊q⌋ else none)

/-- Violations of the per-key rules of updateProductSchema. -/
def updateFieldErrors (b : UpdateBody) : List ValidationDetail :=
  (checkNameU b.name).1 ++ (checkDescription b.description).1 ++ (checkPriceU b.price).1 ++
    (checkCategoryU b.category).1 ++ (checkStockU b.stock).1

/-- Number of schema keys present in the body (unknown keys are stripped
before the object-level `.min(1)` rule counts keys). -/
def updatePresentCount (b : UpdateBody) : ℕ :=
  (if b.name.isSome then 1 else 0) + (if b.description.isSome then 1 else 0) +
    (if b.price.isSome then 1 else 0) + (if b.category.isSome then 1 else 0) +
    (if b.stock.isSome then 1 else 0)

/-- All violations of updateProductSchema, the object-level `.min(1)` rule
included (its Joi default message; empty path). -/
def updateErrors (b : UpdateBody) : List ValidationDetail :=
  updateFieldErrors b ++
    (if updatePresentCount b = 0 then [⟨"", "\"value\" must have at least 1 key", .undef⟩] else [])

/-- The normalized value produced by updateProductSchema. -/
def updateValue (b : UpdateBody) : UpdateData where
  name := (checkNameU b.name).2
  description := (checkDescription b.description).2
  price := (checkPriceU b.price).2
  category := (checkCategoryU b.category).2
  stock := (checkStockU b.stock).2

/-- `updateProductSchema.validate(body, ...)`. -/
def updateProductSchema (b : UpdateBody) : Except (List ValidationDetail) UpdateData :=
  if updateErrors b = [] then .ok (updateValue b) else .error (updateErrors b)

/-! ## querySchema (GET /products query string) -/

/-- Raw query of GET /products after numeric coercion, before validation. -/
structure QueryInput where
  page : Option ℚ
  limit : Option ℚ
  sort : Option String
  category : Option String
  minPrice : Option ℚ
  maxPrice : Option ℚ
  search : Option String
  unknownFields : List String

/-- Normalized query parameters handed to the getProducts handler. -/
structure QueryParams where
  page : ℕ
  limit : ℕ
  sort : String
  category : Option String
  minPrice : Option ℚ
  maxPrice : Option ℚ
  search : Option String
  deriving DecidableEq

/-- `page: Joi.number().integer().min(1).default(1)`. -/
def checkPage : Option ℚ → List ValidationDetail × Option ℕ
  | none => ([], some 1)
  | some q =>
      ((if q = ((⌊q⌋ : ℤ) : ℚ) then [] else [⟨"page", "page must be an integer", .num q⟩]) ++
       (if q < 1 then [⟨"page", "page must be greater than or equal to 1", .num q⟩] else []),
       if q = ((⌊q⌋ : ℤ) : ℚ) ∧ 1 ≤ q then some ⌊q⌋.toNat else none)

/-- `limit: Joi.number().integer().min(1).max(100).default(10)`. -/
def checkLimit : Option ℚ → List ValidationDetail × Option ℕ
  | none => ([], some 10)
  | some q =>
      ((if q = ((⌊q⌋ : ℤ) : ℚ) then [] else [⟨"limit", "limit must be an integer", .num q⟩]) ++
       (if q < 1 then [⟨"limit", "limit must be greater than or equal to 1", .num q⟩] else []) ++
       (if 100 < q then [⟨"limit", "limit must be less than or equal to 100", .num q⟩] else []),
       if q = ((⌊q⌋ : ℤ) : ℚ) ∧ 1 ≤ q ∧ q ≤ 100 then some ⌊q⌋.toNat else none)

/-- The 12 values accepted by `sort: Joi.string().valid(...)`. -/
def sortValues : List String :=
  ["name", "price", "category", "stock", "createdAt", "updatedAt",
   "-name", "-price", "-category", "-stock", "-createdAt", "-updatedAt"]

/-- `sort` rule: enumerated whitelist with default `-createdAt`. -/
def checkSort : Option String → List ValidationDetail × Option String
  | none => ([], some "-createdAt")
  | some s =>
      if s ∈ sortValues then ([], some s)
      else ([⟨"sort", "sort must be one of the allowed sort fields", .str s⟩], none)

/-- `category: Joi.string().trim()` (an empty string is not allowed by Joi). -/
def checkCategoryQ : Option String → List ValidationDetail × Option String
  | none => ([], none)
  | some s =>
      let t := jsTrim s
      if t.length = 0 then ([⟨"category", "category is not allowed to be empty", .str t⟩], none)
      else ([], some t)

/-- `minPrice: Joi.number().min(0)`. -/
def checkMinPrice : Option ℚ → List ValidationDetail × Option ℚ
  | none => ([], none)
  | some q =>
      if q < 0 then ([⟨"minPrice", "minPrice must be greater than or equal to 0", .num q⟩], none)
      else ([], some q)

/-- `maxPrice: Joi.number().min(0)`. -/
def checkMaxPrice : Option ℚ → List ValidationDetail × Option ℚ
  | none => ([], none)
  | some q =>
      if q < 0 then ([⟨"maxPrice", "maxPrice must be greater than or equal to 0", .num q⟩], none)
      else ([], some q)

/-- `search: Joi.string().trim().max(100)`. -/
def checkSearch : Option String → List ValidationDetail × Option String
  | none => ([], none)
  | some s =>
      let t := jsTrim s
      if t.length = 0 then ([⟨"search", "search is not allowed to be empty", .str t⟩], none)
      else if 100 < t.length then
        ([⟨"search", "search length must be less than or equal to 100 characters long", .str t⟩], none)
      else ([], some t)

/-- Violations of the per-key rules of querySchema, in schema key order. -/
def queryFieldErrors (i : QueryInput) : List ValidationDetail :=
  (checkPage i.page).1 ++ (checkLimit i.limit).1 ++ (checkSort i.sort).1 ++
    (checkCategoryQ i.category).1 ++ (checkMinPrice i.minPrice).1 ++
    (checkMaxPrice i.maxPrice).1 ++ (checkSearch i.search).1

/-- The normalized query value (defaults applied). -/
def queryValue (i : QueryInput) : QueryParams where
  page := (checkPage i.page).2.getD 1
  limit := (checkLimit i.limit).2.getD 10
  sort := (checkSort i.sort).2.getD "-createdAt"
  category := (checkCategoryQ i.category).2
  minPrice := (checkMinPrice i.minPrice).2
  maxPrice := (checkMaxPrice i.maxPrice).2
  search := (checkSearch i.search).2

/-- The `.custom(...)` cross-field rule of querySchema, exactly as written:
`if (value.minPrice && value.maxPrice && value.maxPrice < value.minPrice)`.
A JavaScript number is truthy when it is present and nonzero, so the rule
fires only when both bounds are present AND both are nonzero. -/
def querySchemaCustom (v : QueryParams) : List ValidationDetail :=
  match v.minPrice, v.maxPrice with
  | some mn, some mx =>
      if mn ≠ 0 ∧ mx ≠ 0 ∧ mx < mn then [⟨"", "value contains an invalid value", .undef⟩]
      else []
  | _, _ => []

/-- `querySchema.validate(query, ...)`: key rules, then the custom rule. -/
def querySchema (i : QueryInput) : Except (List ValidationDetail) QueryParams :=
  if queryFieldErrors i = [] then
    if querySchemaCustom (queryValue i) = [] then .ok (queryValue i)
    else .error (querySchemaCustom (queryValue i))
  else .error (queryFieldErrors i)

/-! ## Validation middleware (src/src/middleware/validation.js) -/

/-- The error envelope `{ success: false, error: { message, code, details } }`
sent with status 400 on validation failure. -/
structure ErrorEnvelope where
  success : Bool
  message : String
  code : String
  details : List ValidationDetail
  deriving DecidableEq

/-- Outcome of a middleware: an early response (the route handler is never
invoked) or continuation with the replaced, normalized request part. -/
inductive MwResult (α : Type) where
  | respond (status : ℕ) (body : ErrorEnvelope)
  | next (value : α)

/-- `validate(schema, property)` from src/src/middleware/validation.js: on
error respond 400 VALIDATION_ERROR with every detail; on success replace
`req[property]` with the validated value and call `next()`. -/
def validate {α β : Type} (schema : α → Except (List ValidationDetail) β) (input : α) :
    MwResult β :=
  match schema input with
  | .error ds => .respond 400 ⟨false, "Validation failed", "VALIDATION_ERROR", ds⟩
  | .ok v => .next v

/-! ## Product model and store (src/src/models/Product.js) -/

/-- A persisted product document. -/
structure StoredProduct where
  id : ℕ
  name : String
  description : Option String
  price : ℚ
  category : String
  stock : ℤ
  createdAt : ℕ
  updatedAt : ℕ
  deriving DecidableEq

/-- The pre-save hook of src/src/models/Product.js:
`if (this.price) { this.price = Math.round(this.price * 100) / 100; }` —
the guard is JavaScript truthiness, so a price of 0 skips the rounding. -/
def productPreSave (p : StoredProduct) : StoredProduct :=
  if p.price ≠ 0 then { p with price := round2 p.price } else p

/-- Modelled from the spec: the create handler (productController.js is not
under src/) persists the validated payload through a document save, so the
pre-save hook of src/src/models/Product.js runs; timestamps are assigned by
the store (spec 4.4: side effects of create). -/
def storeCreate (store : List StoredProduct) (d : CreateData) (idv ts : ℕ) :
    List StoredProduct :=
  productPreSave ⟨idv, d.name, d.description, d.price, d.category, d.stock, ts, ts⟩ :: store

/-- Modelled from the spec: the update handler (productController.js is not
under src/) applies the partial payload to the found document and saves it,
so the pre-save hook runs and the price is normalized before persisting
(spec 4.4: create and update normalize price to 2 decimals before
persisting). -/
def applyUpdate (u : UpdateData) (p : StoredProduct) (ts : ℕ) : StoredProduct :=
  productPreSave
    { p with
      name := u.name.getD p.name
      description := match u.description with | none => p.description | some d => some d
      price := u.price.getD p.price
      category := u.category.getD p.category
      stock := u.stock.getD p.stock
      updatedAt := ts }

/-- Modelled from the spec: update(id, partialData) replaces the matching
document with its saved update and leaves every other document unchanged. -/
def storeUpdate (store : List StoredProduct) (idv : ℕ) (u : UpdateData) (ts : ℕ) :
    List StoredProduct :=
  store.map fun p => if p.id = idv then applyUpdate u p ts else p

/-! ## Error handler (src/unnamed/part_001, errorHandler middleware) -/

/-- A JavaScript `err.code`: Mongo uses the number 11000, application errors
use string codes. -/
inductive JsCode where
  | num (n : ℤ)
  | str (s : String)
  deriving DecidableEq

/-- One entry of a Mongoose ValidationError `err.errors` map. -/
structure MongooseErrVal where
  path : String
  message : String
  value : JsVal
  deriving DecidableEq

/-- The `details` payload of an error response. -/
inductive ErrDetails where
  | dup (dupField : String) (value : JsVal)
  | fieldList (l : List ValidationDetail)
  deriving DecidableEq

/-- The error object reaching the errorHandler middleware.  `message` and
`stack` are the standard non-enumerable Error properties (read explicitly by
the handler); the rest are own enumerable properties copied by `{...err}`. -/
structure JsError where
  name : Option String
  code : Option JsCode
  statusCode : Option ℕ
  message : String
  details : Option ErrDetails
  stack : String
  keyValue : List (String × JsVal)
  errorsMap : List MongooseErrVal
  deriving DecidableEq

/-- The local `error` object the handler rebuilds branch by branch. -/
structure ErrState where
  message : String
  code : Option JsCode
  statusCode : Option ℕ
  details : Option ErrDetails
  deriving DecidableEq

/-- The JSON error response body
`{ success: false, error: { message, code, details?, stack? } }`. -/
structure ErrorResponse where
  success : Bool
  message : String
  code : String
  details : Option ErrDetails
  stack : Option String
  deriving DecidableEq

/-- `error.code || 'INTERNAL_ERROR'`: a missing code, an empty string and the
number 0 are falsy; a numeric code is serialized. -/
def renderCode : Option JsCode → String
  | some (.str s) => if s = "" then "INTERNAL_ERROR" else s
  | some (.num n) => if n = 0 then "INTERNAL_ERROR" else toString n
  | none => "INTERNAL_ERROR"

/-- The errorHandler middleware: recognize CastError, Mongo duplicate key
11000, Mongoose ValidationError, JsonWebTokenError and TokenExpiredError in
that order, then fall back to `statusCode || 500`, `message || 'Internal
Server Error'`, `code || 'INTERNAL_ERROR'`; the stack is attached exactly
when `process.env.NODE_ENV === 'development'`. -/
def errorHandler (env : String) (err : JsError) : ℕ × ErrorResponse :=
  let e0 : ErrState := ⟨err.message, err.code, err.statusCode, err.details⟩
  let e1 := if err.name = some "CastError" then
      (⟨"Resource not found", some (.str "INVALID_ID"), some 404, none⟩ : ErrState)
    else e0
  let e2 := if err.code = some (.num 11000) then
      (let f := (err.keyValue.head?.map Prod.fst).getD "undefined"
       let v := (err.keyValue.head?.map Prod.snd).getD .undef
       (⟨f ++ " already exists", some (.str "DUPLICATE_FIELD"), some 400,
         some (.dup f v)⟩ : ErrState))
    else e1
  let e3 := if err.name = some "ValidationError" then
      (⟨"Validation failed", some (.str "VALIDATION_ERROR"), some 400,
        some (.fieldList (err.errorsMap.map fun v => ⟨v.path, v.message, v.value⟩))⟩ : ErrState)
    else e2
  let e4 := if err.name = some "JsonWebTokenError" then
      (⟨"Invalid token", some (.str "INVALID_TOKEN"), some 401, none⟩ : ErrState)
    else e3
  let e5 := if err.name = some "TokenExpiredError" then
      (⟨"Token expired", some (.str "TOKEN_EXPIRED"), some 401, none⟩ : ErrState)
    else e4
  let status := match e5.statusCode with
    | some n => if n = 0 then 500 else n
    | none => 500
  let msg := if e5.message = "" then "Internal Server Error" else e5.message
  (status, ⟨false, msg, renderCode e5.code, e5.details,
    if env = "development" then some err.stack else none⟩)

/-- Modelled from the spec: the product controller (not under src/) signals
a well-formed but absent id as an error carrying code PRODUCT_NOT_FOUND and
statusCode 404 (spec 4.4: findById fails with PRODUCT_NOT_FOUND, HTTP 404),
which the errorHandler default branch passes through unchanged. -/
def productNotFoundError : JsError :=
  ⟨none, some (.str "PRODUCT_NOT_FOUND"), some 404, "Product not found", none, "", [], []⟩

/-! ## Product query builder (spec 4.3; productController.js is not under src/) -/

/-- Case-insensitive character list. -/
def lowerChars (l : List Char) : List Char := l.map Char.toLower

/-- Does the second list start with the first? -/
def leadsWith : List Char → List Char → Bool
  | [], _ => true
  | _ :: _, [] => false
  | a :: as, b :: bs => a == b && leadsWith as bs

/-- Does the second list contain the first as a contiguous subsequence? -/
def containsSeq (pat : List Char) : List Char → Bool
  | [] => pat.isEmpty
  | c :: rest => leadsWith pat (c :: rest) || containsSeq pat rest

/-- The sortable fields of the whitelist. -/
inductive SortKey where
  | byName | byPrice | byCategory | byStock | byCreatedAt | byUpdatedAt
  deriving DecidableEq

/-- Split a whitelisted sort value into field and direction; `-` means
descending, and the default is descending by creation time. -/
def parseSort : String → SortKey × Bool
  | "name" => (.byName, false)
  | "-name" => (.byName, true)
  | "price" => (.byPrice, false)
  | "-price" => (.byPrice, true)
  | "category" => (.byCategory, false)
  | "-category" => (.byCategory, true)
  | "stock" => (.byStock, false)
  | "-stock" => (.byStock, true)
  | "createdAt" => (.byCreatedAt, false)
  | "-createdAt" => (.byCreatedAt, true)
  | "updatedAt" => (.byUpdatedAt, false)
  | "-updatedAt" => (.byUpdatedAt, true)
  | _ => (.byCreatedAt, true)

/-- Lexicographic comparison of character lists. -/
def charListLe : List Char → List Char → Bool
  | [], _ => true
  | _ :: _, [] => false
  | a :: as, b :: bs => if a < b then true else if b < a then false else charListLe as bs

/-- Ascending comparison on one sortable field. -/
def keyLe (k : SortKey) (a b : StoredProduct) : Bool :=
  match k with
  | .byName => charListLe a.name.data b.name.data
  | .byPrice => decide (a.price ≤ b.price)
  | .byCategory => charListLe a.category.data b.category.data
  | .byStock => decide (a.stock ≤ b.stock)
  | .byCreatedAt => decide (a.createdAt ≤ b.createdAt)
  | .byUpdatedAt => decide (a.updatedAt ≤ b.updatedAt)

/-- Comparison induced by a sort parameter (descending reverses the field order). -/
def sortLe (s : String) (a b : StoredProduct) : Bool :=
  if (parseSort s).2 then keyLe (parseSort s).1 b a else keyLe (parseSort s).1 a b

/-- Modelled from the spec: the filter built by getProducts from the
normalized query (productController.js is not under src/): exact
case-sensitive category match, inclusive price range, case-insensitive
substring search on the name — each applied only if present (spec 4.3). -/
def matchesFilter (q : QueryParams) (p : StoredProduct) : Bool :=
  (match q.category with | none => true | some c => p.category == c) &&
  (match q.minPrice with | none => true | some mn => decide (mn ≤ p.price)) &&
  (match q.maxPrice with | none => true | some mx => decide (p.price ≤ mx)) &&
  (match q.search with
   | none => true
   | some s => containsSeq (lowerChars s.data) (lowerChars p.name.data))

/-- The page returned by GET /products together with its pagination metadata. -/
structure ListResult where
  items : List StoredProduct
  page : ℕ
  limit : ℕ
  total : ℕ
  totalPages : ℕ

/-- Modelled from the spec: getProducts (productController.js is not under
src/) filters, sorts, skips `(page-1)*limit`, limits to `limit`, counts all
matching documents and reports `totalPages = ceil(total / limit)`
(spec 4.3: pagination contract). -/
def listProducts (store : List StoredProduct) (q : QueryParams) : ListResult :=
  let filtered := store.filter (matchesFilter q)
  let sorted := filtered.mergeSort (sortLe q.sort)
  let total := filtered.length
  { items := (sorted.drop ((q.page - 1) * q.limit)).take q.limit
    page := q.page
    limit := q.limit
    total := total
    totalPages := (total + q.limit - 1) / q.limit }

/-! ## General lemmas -/

/-- Rounding to 2 decimals is idempotent. -/
theorem round2_idem (q : ℚ) : round2 (round2 q) = round2 q := by
  unfold round2
  rw [div_mul_cancel₀ _ (by norm_num : (100 : ℚ) ≠ 0), round_intCast]

/-- The pre-save hook always leaves the price equal to its 2-decimal
rounding: a nonzero price is rounded, and a zero price is already equal to
`round2 0`. -/
theorem productPreSave_price (p : StoredProduct) :
    (productPreSave p).price = round2 p.price := by
  unfold productPreSave
  by_cases h : p.price = 0
  · simp [h, round2]
  · simp [h]

/-- Nat ceiling division `(t + l - 1) / l` agrees with the rational ceiling. -/
theorem natCeilDiv (t l : ℕ) (hl : 0 < l) :
    (((t + l - 1) / l : ℕ) : ℤ) = ⌈(t : ℚ) / (l : ℚ)⌉ := by
  have hl' : (0 : ℚ) < (l : ℚ) := by exact_mod_cast hl
  rcases Nat.eq_zero_or_pos t with ht | ht
  · subst ht
    simp [Nat.div_eq_of_lt (show l - 1 < l by omega)]
  · set c := (t + l - 1) / l with hc
    have hdm := Nat.div_add_mod (t + l - 1) l
    have hmod : (t + l - 1) % l < l := Nat.mod_lt _ hl
    rw [← hc] at hdm
    have h1 : t ≤ l * c := by omega
    have h2 : l * c ≤ t + l - 1 := by omega
    have h1' : (t : ℤ) ≤ (l : ℤ) * c := by exact_mod_cast h1
    have h2' : (l : ℤ) * c ≤ (t : ℤ) + l - 1 := by
      zify [show 1 ≤ t + l by omega] at h2
      exact h2
    rw [eq_comm, Int.ceil_eq_iff]
    constructor
    · rw [lt_div_iff₀ hl']
      have hq : (l : ℚ) * c ≤ (t : ℚ) + l - 1 := by exact_mod_cast h2'
      push_cast
      linarith
    · rw [div_le_iff₀ hl']
      have hq : (t : ℚ) ≤ (l : ℚ) * c := by exact_mod_cast h1'
      push_cast
      linarith

/-! ## Claims -/

/-- C1: the claim says that whenever both minPrice and maxPrice are present
and maxPrice < minPrice the Validation Gate rejects with VALIDATION_ERROR,
in particular when one of the two values is 0.  The code checks
`value.minPrice && value.maxPrice && value.maxPrice < value.minPrice`, and a
0 bound is falsy, so with minPrice = 5 and maxPrice = 0 the gate ACCEPTS the
query and the handler is invoked: the claim fails on this input. -/
theorem C1_zero_maxPrice_skips_cross_field_rule :
    validate querySchema ⟨none, none, none, none, some 5, some 0, none, []⟩ =
      .next ⟨1, 10, "-createdAt", none, some 5, some 0, none⟩ := by
  have h5 : checkMinPrice (some 5) = ([], some 5) := by norm_num [checkMinPrice]
  have h0 : checkMaxPrice (some 0) = ([], some 0) := by norm_num [checkMaxPrice]
  simp [validate, querySchema, queryFieldErrors, queryValue, querySchemaCustom,
    checkPage, checkLimit, checkSort, checkCategoryQ, checkSearch, h5, h0]

/-- C2 counterexample: for a malformed id (a Mongoose CastError) the error
handler answers 404 but with error kind INVALID_ID, not PRODUCT_NOT_FOUND as
the claim states. -/
theorem C2_counterexample :
    (errorHandler "production"
        ⟨some "CastError", none, none, "Cast to ObjectId failed", none, "trace", [], []⟩).2.code =
      "INVALID_ID" ∧
    (errorHandler "production"
        ⟨some "CastError", none, none, "Cast to ObjectId failed", none, "trace", [], []⟩).2.code ≠
      "PRODUCT_NOT_FOUND" ∧
    (errorHandler "production"
        ⟨some "CastError", none, none, "Cast to ObjectId failed", none, "trace", [], []⟩).1 = 404 := by
  refine ⟨rfl, by decide, rfl⟩

/-- C2 amended: a request whose id is not a well-formed ObjectId is answered
with HTTP 404 and message Resource not found, but its error kind is
INVALID_ID — a different kind from the PRODUCT_NOT_FOUND kind produced for a
well-formed but absent id. -/
theorem C2_cast_error_yields_invalid_id (env : String) (err : JsError)
    (h1 : err.name = some "CastError") (h2 : err.code ≠ some (.num 11000)) :
    errorHandler env err =
      (404, ⟨false, "Resource not found", "INVALID_ID", none,
        if env = "development" then some err.stack else none⟩) ∧
    (errorHandler env productNotFoundError).2.code = "PRODUCT_NOT_FOUND" := by
  constructor
  · simp [errorHandler, renderCode, h1, h2]
  · simp [errorHandler, renderCode, productNotFoundError]

/-- Witness for C2: the amended theorem applied to a concrete CastError. -/
theorem C2_cast_error_yields_invalid_id_witness :
    errorHandler "production"
        ⟨some "CastError", none, none, "Cast to ObjectId failed for value abc", none, "st", [], []⟩ =
      (404, ⟨false, "Resource not found", "INVALID_ID", none,
        if ("production" : String) = "development" then some "st" else none⟩) ∧
    (errorHandler "production" productNotFoundError).2.code = "PRODUCT_NOT_FOUND" :=
  C2_cast_error_yields_invalid_id "production"
    ⟨some "CastError", none, none, "Cast to ObjectId failed for value abc", none, "st", [], []⟩
    rfl (by decide)

/-- C3: the claim says a create payload whose price has more than 2 decimal
places (10.999) is rejected with VALIDATION_ERROR and never silently
rounded.  In the code the Joi precision rule runs in convert mode, so the
gate ACCEPTS the payload and hands the handler the price rounded to 11: the
claim fails, and the configured precision message is unreachable. -/
theorem C3_gate_rounds_excess_precision :
    validate createProductSchema ⟨some "Widget", none, some 10.999, some "Kitchen", some 3, []⟩ =
      .next ⟨"Widget", none, 11, "Kitchen", 3⟩ := by
  have hn : checkName (some "Widget") = ([], some "Widget") := by decide
  have hc : checkCategory (some "Kitchen") = ([], some "Kitchen") := by decide
  have hp : checkPrice (some 10.999) = ([], some 11) := by
    norm_num [checkPrice, joiPrecision2, round2, round_eq]
  have hs : checkStock (some 3) = ([], some 3) := by
    norm_num [checkStock]
  simp [validate, createProductSchema, createErrors, createValue, checkDescription,
    hn, hc, hp, hs]

/-- C4: every product written by a store operation (create, or update via a
document save) carries the 2-decimal rounding of the input price, and both
operations preserve the invariant that every stored price equals its own
2-decimal rounding. -/
theorem C4_store_price_rounded (store : List StoredProduct) (d : CreateData)
    (idv ts pid : ℕ) (u : UpdateData) :
    (∀ p ∈ storeCreate store d idv ts, p ∈ store ∨ p.price = round2 d.price) ∧
    (∀ p ∈ storeUpdate store pid u ts, p ∈ store ∨
        ∃ p0 ∈ store, p = applyUpdate u p0 ts ∧ p.price = round2 (u.price.getD p0.price)) ∧
    ((∀ p ∈ store, p.price = round2 p.price) →
        (∀ p ∈ storeCreate store d idv ts, p.price = round2 p.price) ∧
        (∀ p ∈ storeUpdate store pid u ts, p.price = round2 p.price)) := by
  have happly : ∀ p0, (applyUpdate u p0 ts).price = round2 (u.price.getD p0.price) := by
    intro p0
    unfold applyUpdate
    rw [productPreSave_price]
  refine ⟨?_, ?_, ?_⟩
  · intro p hp
    rcases List.mem_cons.mp hp with h | h
    · right
      rw [h, productPreSave_price]
    · left
      exact h
  · intro p hp
    rcases List.mem_map.mp hp with ⟨p0, hp0, heq⟩
    by_cases hid : p0.id = pid
    · right
      refine ⟨p0, hp0, ?_, ?_⟩
      · rw [← heq, if_pos hid]
      · rw [← heq, if_pos hid]
        exact happly p0
    · left
      rw [← heq, if_neg hid]
      exact hp0
  · intro hinv
    constructor
    · intro p hp
      rcases List.mem_cons.mp hp with h | h
      · rw [h, productPreSave_price]
        exact (round2_idem _).symm
      · exact hinv p h
    · intro p hp
      rcases List.mem_map.mp hp with ⟨p0, hp0, heq⟩
      rw [← heq]
      by_cases hid : p0.id = pid
      · rw [if_pos hid, happly p0]
        exact (round2_idem _).symm
      · rw [if_neg hid]
        exact hinv p0 hp0

/-- Witness for C4: the create path at price 10.999 on an empty store. -/
theorem C4_store_price_rounded_witness :
    (productPreSave ⟨7, "A", none, 10.999, "C", 1, 5, 5⟩).price =
      round2 (productPreSave ⟨7, "A", none, 10.999, "C", 1, 5, 5⟩).price := by
  have h := C4_store_price_rounded [] ⟨"A", none, 10.999, "C", 1⟩ 7 5 0
    ⟨none, none, none, none, none⟩
  exact (h.2.2 (by simp)).1 _ (by simp [storeCreate])

/-- C5: every returned page has at most `limit` items, the items are
exactly the slice from `(page-1)*limit` to `page*limit` of the filtered and
sorted result set, `total` counts every matching product, and
`totalPages = ceil(total / limit)`. -/
theorem C5_list_pagination (store : List StoredProduct) (q : QueryParams)
    (hp : 1 ≤ q.page) (hl : 1 ≤ q.limit) :
    (listProducts store q).items.length ≤ q.limit ∧
    (listProducts store q).items =
      (((store.filter (matchesFilter q)).mergeSort (sortLe q.sort)).drop
          ((q.page - 1) * q.limit)).take (q.page * q.limit - (q.page - 1) * q.limit) ∧
    (listProducts store q).total = (store.filter (matchesFilter q)).length ∧
    ((listProducts store q).totalPages : ℤ) =
      ⌈((listProducts store q).total : ℚ) / (q.limit : ℚ)⌉ := by
  obtain ⟨p1, hp1⟩ : ∃ p1, q.page = p1 + 1 := ⟨q.page - 1, by omega⟩
  have harg : q.page * q.limit - (q.page - 1) * q.limit = q.limit := by
    rw [hp1]
    simp only [Nat.add_sub_cancel]
    rw [Nat.succ_mul]
    omega
  refine ⟨List.length_take_le _ _, ?_, rfl, ?_⟩
  · rw [harg]
    rfl
  · exact natCeilDiv _ _ (by omega)

/-- Witness for C5: the theorem at the default query over a two-product
store (the integration test scenario). -/
theorem C5_list_pagination_witness :
    (listProducts
        [⟨1, "Product 1", none, 10.99, "Electronics", 5, 1, 1⟩,
         ⟨2, "Product 2", none, 20.99, "Books", 10, 2, 2⟩]
        ⟨1, 10, "-createdAt", none, none, none, none⟩).items.length ≤ 10 ∧
    ((listProducts
        [⟨1, "Product 1", none, 10.99, "Electronics", 5, 1, 1⟩,
         ⟨2, "Product 2", none, 20.99, "Books", 10, 2, 2⟩]
        ⟨1, 10, "-createdAt", none, none, none, none⟩).totalPages : ℤ) =
      ⌈((listProducts
        [⟨1, "Product 1", none, 10.99, "Electronics", 5, 1, 1⟩,
         ⟨2, "Product 2", none, 20.99, "Books", 10, 2, 2⟩]
        ⟨1, 10, "-createdAt", none, none, none, none⟩).total : ℚ) / ((10 : ℕ) : ℚ)⌉ := by
  have h := C5_list_pagination
    [⟨1, "Product 1", none, 10.99, "Electronics", 5, 1, 1⟩,
     ⟨2, "Product 2", none, 20.99, "Books", 10, 2, 2⟩]
    ⟨1, 10, "-createdAt", none, none, none, none⟩ (by decide) (by decide)
  exact ⟨h.1, h.2.2.2⟩

/-- The query violation list is empty exactly when every key rule passes. -/
theorem queryFieldErrors_nil (i : QueryInput) :
    queryFieldErrors i = [] ↔
      (checkPage i.page).1 = [] ∧ (checkLimit i.limit).1 = [] ∧ (checkSort i.sort).1 = [] ∧
      (checkCategoryQ i.category).1 = [] ∧ (checkMinPrice i.minPrice).1 = [] ∧
      (checkMaxPrice i.maxPrice).1 = [] ∧ (checkSearch i.search).1 = [] := by
  simp [queryFieldErrors, List.append_eq_nil, and_assoc]

/-- C6: the Validation Gate defaults an absent page to 1, an absent limit
to 10 and an absent sort to `-createdAt`, and rejects with VALIDATION_ERROR
any limit above 100 and any sort value outside the 12-entry whitelist. -/
theorem C6_query_defaults_and_whitelist :
    (∀ i : QueryInput, ∀ v : QueryParams, querySchema i = .ok v →
        (i.page = none → v.page = 1) ∧ (i.limit = none → v.limit = 10) ∧
        (i.sort = none → v.sort = "-createdAt")) ∧
    (∀ i : QueryInput, ∀ l : ℚ, i.limit = some l → 100 < l →
        validate querySchema i =
          .respond 400 ⟨false, "Validation failed", "VALIDATION_ERROR", queryFieldErrors i⟩) ∧
    (∀ i : QueryInput, ∀ s : String, i.sort = some s → s ∉ sortValues →
        validate querySchema i =
          .respond 400 ⟨false, "Validation failed", "VALIDATION_ERROR", queryFieldErrors i⟩) := by
  refine ⟨?_, ?_, ?_⟩
  · intro i v h
    unfold querySchema at h
    by_cases h1 : queryFieldErrors i = []
    · rw [if_pos h1] at h
      by_cases h2 : querySchemaCustom (queryValue i) = []
      · rw [if_pos h2] at h
        have hv : queryValue i = v := by
          injection h
        subst hv
        refine ⟨?_, ?_, ?_⟩
        · intro hpage
          simp [queryValue, hpage, checkPage]
        · intro hlimit
          simp [queryValue, hlimit, checkLimit]
        · intro hsort
          simp [queryValue, hsort, checkSort]
      · rw [if_neg h2] at h
        exact absurd h (by simp)
    · rw [if_neg h1] at h
      exact absurd h (by simp)
  · intro i l hil h100
    have hlim : (checkLimit i.limit).1 ≠ [] := by
      rw [hil]
      intro hemp
      simp only [checkLimit] at hemp
      have hc : (if 100 < l then
          [(⟨"limit", "limit must be less than or equal to 100", JsVal.num l⟩ :
            ValidationDetail)] else []) = [] :=
        (List.append_eq_nil.mp hemp).2
      rw [if_pos h100] at hc
      cases hc
    have hfe : queryFieldErrors i ≠ [] := fun hemp =>
      hlim ((queryFieldErrors_nil i).mp hemp).2.1
    simp [validate, querySchema, hfe]
  · intro i s his hs
    have hsrt : (checkSort i.sort).1 ≠ [] := by
      rw [his]
      simp [checkSort, hs]
    have hfe : queryFieldErrors i ≠ [] := fun hemp =>
      hsrt ((queryFieldErrors_nil i).mp hemp).2.2.1
    simp [validate, querySchema, hfe]

/-- Witness for C6: limit 101 and sort `priciest` are rejected, the empty
query normalizes to page 1, limit 10, sort `-createdAt`. -/
theorem C6_query_defaults_and_whitelist_witness :
    validate querySchema ⟨none, some 101, none, none, none, none, none, []⟩ =
      .respond 400 ⟨false, "Validation failed", "VALIDATION_ERROR",
        queryFieldErrors ⟨none, some 101, none, none, none, none, none, []⟩⟩ ∧
    validate querySchema ⟨none, none, some "priciest", none, none, none, none, []⟩ =
      .respond 400 ⟨false, "Validation failed", "VALIDATION_ERROR",
        queryFieldErrors ⟨none, none, some "priciest", none, none, none, none, []⟩⟩ ∧
    ((⟨1, 10, "-createdAt", none, none, none, none⟩ : QueryParams).page = 1 ∧
     (⟨1, 10, "-createdAt", none, none, none, none⟩ : QueryParams).limit = 10 ∧
     (⟨1, 10, "-createdAt", none, none, none, none⟩ : QueryParams).sort = "-createdAt") := by
  refine ⟨?_, ?_, ?_⟩
  · exact C6_query_defaults_and_whitelist.2.1 _ 101 rfl (by norm_num)
  · exact C6_query_defaults_and_whitelist.2.2 _ "priciest" rfl (by decide)
  · have h := C6_query_defaults_and_whitelist.1
      ⟨none, none, none, none, none, none, none, []⟩
      ⟨1, 10, "-createdAt", none, none, none, none⟩ rfl
    exact ⟨h.1 rfl, h.2.1 rfl, h.2.2 rfl⟩

/-- C7: whenever the body or query violates its schema the Gate responds
400 VALIDATION_ERROR carrying the complete violation list (each entry a
field path, message and offending value) and the handler is not invoked; on
success the request part is replaced by the schema output, and unknown
fields never influence the outcome (they are stripped). -/
theorem C7_gate_reports_every_violation (b : CreateBody) (i : QueryInput) :
    (createErrors b ≠ [] →
        validate createProductSchema b =
          .respond 400 ⟨false, "Validation failed", "VALIDATION_ERROR", createErrors b⟩) ∧
    (createErrors b = [] → validate createProductSchema b = .next (createValue b)) ∧
    (∀ u, createProductSchema { b with unknownFields := u } = createProductSchema b) ∧
    (queryFieldErrors i ≠ [] →
        validate querySchema i =
          .respond 400 ⟨false, "Validation failed", "VALIDATION_ERROR", queryFieldErrors i⟩) ∧
    (∀ u, querySchema { i with unknownFields := u } = querySchema i) := by
  refine ⟨?_, ?_, fun u => rfl, ?_, fun u => rfl⟩
  · intro h
    simp [validate, createProductSchema, h]
  · intro h
    simp [validate, createProductSchema, h]
  · intro h
    simp [validate, querySchema, h]

/-- Witness for C7: the invalid body of the integration test (empty name,
negative price, missing category, negative stock) is rejected with all its
violations; a fully valid body passes through normalized. -/
theorem C7_gate_reports_every_violation_witness :
    validate createProductSchema ⟨some "", none, some (-10), none, some (-5), []⟩ =
      .respond 400 ⟨false, "Validation failed", "VALIDATION_ERROR",
        createErrors ⟨some "", none, some (-10), none, some (-5), []⟩⟩ ∧
    validate createProductSchema ⟨some "Mouse", none, some 5.5, some "Accessories", some 2, []⟩ =
      .next (createValue ⟨some "Mouse", none, some 5.5, some "Accessories", some 2, []⟩) := by
  constructor
  · refine (C7_gate_reports_every_violation _
      ⟨none, none, none, none, none, none, none, []⟩).1 ?_
    have hp : checkPrice (some (-10)) =
        ([⟨"price", "Price must be a positive number", .num (-10)⟩], none) := by
      norm_num [checkPrice]
    simp [createErrors, checkName, hp]
  · refine (C7_gate_reports_every_violation _
      ⟨none, none, none, none, none, none, none, []⟩).2.1 ?_
    have hn : checkName (some "Mouse") = ([], some "Mouse") := by decide
    have hc : checkCategory (some "Accessories") = ([], some "Accessories") := by decide
    have hs : checkStock (some 2) = ([], some 2) := by decide
    have hp : checkPrice (some 5.5) = ([], some 5.5) := by
      norm_num [checkPrice, joiPrecision2]
    simp [createErrors, hn, hc, hs, hp, checkDescription]

/-- C8: a PUT /products/:id body with zero fields is rejected by the Gate
with VALIDATION_ERROR before any handler (and hence the store) runs, while
a body whose present fields are all valid, with at least one present,
passes the gate. -/
theorem C8_update_requires_a_field (b : UpdateBody) :
    ((b.name = none ∧ b.description = none ∧ b.price = none ∧ b.category = none ∧
        b.stock = none) →
      validate updateProductSchema b =
        .respond 400 ⟨false, "Validation failed", "VALIDATION_ERROR", updateErrors b⟩) ∧
    (updateFieldErrors b = [] → 1 ≤ updatePresentCount b →
      validate updateProductSchema b = .next (updateValue b)) := by
  constructor
  · rintro ⟨h1, h2, h3, h4, h5⟩
    have hfe : updateFieldErrors b = [] := by
      simp [updateFieldErrors, h1, h2, h3, h4, h5, checkNameU, checkDescription,
        checkPriceU, checkCategoryU, checkStockU]
    have hcount : updatePresentCount b = 0 := by
      simp [updatePresentCount, h1, h2, h3, h4, h5]
    have herr : updateErrors b ≠ [] := by
      simp [updateErrors, hfe, hcount]
    simp [validate, updateProductSchema, herr]
  · intro hfe hcount
    have hmin : ¬(updatePresentCount b = 0) := by omega
    have herr : updateErrors b = [] := by
      simp [updateErrors, hfe, hmin]
    simp [validate, updateProductSchema, herr]

/-- Witness for C8: the empty body is rejected; a body updating only the
name passes. -/
theorem C8_update_requires_a_field_witness :
    validate updateProductSchema ⟨none, none, none, none, none, []⟩ =
      .respond 400 ⟨false, "Validation failed", "VALIDATION_ERROR",
        updateErrors ⟨none, none, none, none, none, []⟩⟩ ∧
    validate updateProductSchema ⟨some "New name", none, none, none, none, []⟩ =
      .next (updateValue ⟨some "New name", none, none, none, none, []⟩) := by
  constructor
  · exact (C8_update_requires_a_field _).1 ⟨rfl, rfl, rfl, rfl, rfl⟩
  · exact (C8_update_requires_a_field _).2 (by decide) (by decide)

/-- C9 counterexample: in the non-production environment `test` the error
handler appends no stack trace, refuting the claim that every non-production
build appends one. -/
theorem C9_counterexample :
    ("test" : String) ≠ "production" ∧
    (errorHandler "test"
        ⟨some "TypeError", none, none, "boom", none, "trace at line 1", [], []⟩).2.stack =
      none ∧
    (errorHandler "test"
        ⟨some "TypeError", none, none, "boom", none, "trace at line 1", [], []⟩).2.code =
      "INTERNAL_ERROR" := by
  refine ⟨by decide, rfl, rfl⟩

/-- C9 amended: an error with no recognized name, no code and no statusCode
falls through to HTTP 500 with kind INTERNAL_ERROR and no details; the
stack trace is appended exactly when NODE_ENV equals `development` — so in
production there is no stack, but other non-production environments get
none either. -/
theorem C9_internal_error_fallback (env : String) (err : JsError)
    (h1 : err.name ≠ some "CastError") (h2 : err.name ≠ some "ValidationError")
    (h3 : err.name ≠ some "JsonWebTokenError") (h4 : err.name ≠ some "TokenExpiredError")
    (hc : err.code = none) (hs : err.statusCode = none) (hd : err.details = none) :
    errorHandler env err =
      (500, ⟨false, if err.message = "" then "Internal Server Error" else err.message,
        "INTERNAL_ERROR", none, if env = "development" then some err.stack else none⟩) := by
  simp [errorHandler, renderCode, h1, h2, h3, h4, hc, hs, hd]

/-- Witness for C9: the fallback applied to a concrete unanticipated error
in production. -/
theorem C9_internal_error_fallback_witness :
    errorHandler "production" ⟨some "RangeError", none, none, "overflow", none, "STACK", [], []⟩ =
      (500, ⟨false, if ("overflow" : String) = "" then "Internal Server Error" else "overflow",
        "INTERNAL_ERROR", none,
        if ("production" : String) = "development" then some "STACK" else none⟩) :=
  C9_internal_error_fallback "production"
    ⟨some "RangeError", none, none, "overflow", none, "STACK", [], []⟩
    (by decide) (by decide) (by decide) (by decide) rfl rfl rfl

/-- C10: a search parameter longer than 100 characters after trimming is
rejected by the Validation Gate with VALIDATION_ERROR — a limit the spec
never states. -/
theorem C10_search_trimmed_max_100 (i : QueryInput) (s : String)
    (hsr : i.search = some s) (hlen : 100 < (jsTrim s).length) :
    validate querySchema i =
      .respond 400 ⟨false, "Validation failed", "VALIDATION_ERROR", queryFieldErrors i⟩ := by
  have hse : (checkSearch i.search).1 ≠ [] := by
    rw [hsr]
    have h0 : ¬((jsTrim s).length = 0) := by omega
    simp [checkSearch, h0, hlen]
  have hfe : queryFieldErrors i ≠ [] := fun hemp =>
    hse ((queryFieldErrors_nil i).mp hemp).2.2.2.2.2.2
  simp [validate, querySchema, hfe]

/-- Witness for C10: a 101-character search string is rejected. -/
theorem C10_search_trimmed_max_100_witness :
    validate querySchema
        ⟨none, none, none, none, none, none, some (String.mk (List.replicate 101 'a')), []⟩ =
      .respond 400 ⟨false, "Validation failed", "VALIDATION_ERROR",
        queryFieldErrors
          ⟨none, none, none, none, none, none, some (String.mk (List.replicate 101 'a')), []⟩⟩ :=
  C10_search_trimmed_max_100 _ _ rfl (by decide)
